import Mathlib

/-!
Shallow embedding of the Discord voice subsystem (`DiscordVoiceManager` and
its helper functions) of the openclaw repository.  Buffers are modelled as
lists of byte values (`List Nat`), JavaScript `Map` registries as association
lists, promise chains as explicit event traces, and the asynchronous external
collaborators (channel fetch, voice transport, transcription, agent, TTS) as
oracle parameters.  Fractional durations use `ℚ`; every value involved is an
exact dyadic-over-power-of-ten quantity, so rational arithmetic coincides with
the JavaScript float arithmetic of the source on every comparison performed.
-/

namespace OpenClaw.Voice

/-- Constant `SAMPLE_RATE = 48_000` from the source. -/
def SAMPLE_RATE : Nat := 48000

/-- Constant `CHANNELS = 2` from the source. -/
def CHANNELS : Nat := 2

/-- Constant `BIT_DEPTH = 16` from the source. -/
def BIT_DEPTH : Nat := 16

/-- Constant `MIN_SEGMENT_SECONDS = 0.35` from the source (exact rational). -/
def MIN_SEGMENT_SECONDS : ℚ := 35 / 100

/-! ### Audio container builder (`buildWavBuffer`) -/

/-- Little-endian byte quadruple of a value already reduced mod 2^32;
models the byte effect of `Buffer.writeUInt32LE`. -/
def le4 (v : Nat) : List Nat :=
  [v % 256, v / 256 % 256, v / 65536 % 256, v / 16777216 % 256]

/-- Little-endian byte pair, modelling `Buffer.writeUInt16LE`. -/
def le2 (v : Nat) : List Nat :=
  [v % 256, v / 256 % 256]

/-- Overwrite the bytes of `buf` starting at `off` with `bs`
(the in-bounds behaviour of the Node buffer write primitives). -/
def writeBytesAt : List Nat → Nat → List Nat → List Nat
  | [], _, _ => []
  | b :: rest, 0, [] => b :: rest
  | _ :: rest, 0, v :: vs => v :: writeBytesAt rest 0 vs
  | b :: rest, o + 1, bs => b :: writeBytesAt rest o bs

/-- Byte values of an ASCII string, modelling `header.write(s, off)`. -/
def asciiBytes (s : String) : List Nat :=
  s.toList.map Char.toNat

/-- `Buffer.writeUInt32LE` on the model buffer: the value is reduced mod 2^32
(Node rejects values out of that range; all theorems stay in range). -/
def writeUInt32LE (buf : List Nat) (off v : Nat) : List Nat :=
  writeBytesAt buf off (le4 (v % 4294967296))

/-- `Buffer.writeUInt16LE` on the model buffer. -/
def writeUInt16LE (buf : List Nat) (off v : Nat) : List Nat :=
  writeBytesAt buf off (le2 (v % 65536))

/-- `buildWavBuffer(pcm)` from the source: a 44-byte RIFF/WAVE header built by
successive writes on a zeroed buffer, concatenated with the PCM payload. -/
def buildWavBuffer (pcm : List Nat) : List Nat :=
  let blockAlign := (CHANNELS * BIT_DEPTH) / 8
  let byteRate := SAMPLE_RATE * blockAlign
  let header := List.replicate 44 0
  let header := writeBytesAt header 0 (asciiBytes "RIFF")
  let header := writeUInt32LE header 4 (36 + pcm.length)
  let header := writeBytesAt header 8 (asciiBytes "WAVE")
  let header := writeBytesAt header 12 (asciiBytes "fmt ")
  let header := writeUInt32LE header 16 16
  let header := writeUInt16LE header 20 1
  let header := writeUInt16LE header 22 CHANNELS
  let header := writeUInt32LE header 24 SAMPLE_RATE
  let header := writeUInt32LE header 28 byteRate
  let header := writeUInt16LE header 32 blockAlign
  let header := writeUInt16LE header 34 BIT_DEPTH
  let header := writeBytesAt header 36 (asciiBytes "data")
  let header := writeUInt32LE header 40 pcm.length
  header ++ pcm

/-- `Buffer.readUInt32LE` on the model buffer. -/
def readUInt32LE (buf : List Nat) (off : Nat) : Nat :=
  buf.getD off 0 + 256 * buf.getD (off + 1) 0 +
    65536 * buf.getD (off + 2) 0 + 16777216 * buf.getD (off + 3) 0

/-- `Buffer.readUInt16LE` on the model buffer. -/
def readUInt16LE (buf : List Nat) (off : Nat) : Nat :=
  buf.getD off 0 + 256 * buf.getD (off + 1) 0

/-- `estimateDurationSeconds(pcm)` from the source, over the byte length of
the PCM buffer; division is exact rational division as in JS numbers. -/
def estimateDurationSeconds (len : Nat) : ℚ :=
  let bytesPerSample := (BIT_DEPTH / 8) * CHANNELS
  if bytesPerSample ≤ 0 then 0
  else (len : ℚ) / ((bytesPerSample : ℚ) * (SAMPLE_RATE : ℚ))

/-- Closed form of the header produced by `buildWavBuffer` for payload
length `n` (before reduction of the two length fields mod 2^32). -/
def wavHeaderBytes (n : Nat) : List Nat :=
  [82, 73, 70, 70] ++ le4 ((36 + n) % 4294967296) ++
  [87, 65, 86, 69, 102, 109, 116, 32, 16, 0, 0, 0, 1, 0, 2, 0,
   128, 187, 0, 0, 0, 238, 2, 0, 4, 0, 16, 0, 100, 97, 116, 97] ++
  le4 (n % 4294967296)

/-- JS `s.trim()`. -/
def jsTrim (s : String) : String :=
  String.mk (((s.data.dropWhile Char.isWhitespace).reverse.dropWhile
    Char.isWhitespace).reverse)

/-- One task handed to `enqueueProcessing`/`enqueuePlayback`: its identity and
whether the wrapped asynchronous work resolves or rejects. -/
structure TaskSpec where
  id : Nat
  succeeds : Bool
  deriving DecidableEq, Repr

/-- Observable queue events: a task starting, a task settling and the
per-session `logger.warn` emitted by the `.catch` handler. -/
inductive QEvent
  | start (id : Nat)
  | finish (id : Nat) (ok : Bool)
  | logged (id : Nat)
  deriving DecidableEq, Repr

/-- Settled state of the per-session promise chain. -/
inductive PromiseState
  | fulfilled
  | rejected (id : Nat)
  deriving DecidableEq, Repr

/-- `.then(task)`: the task runs only if the chain is fulfilled; a rejected
chain skips the task and propagates the rejection. -/
def thenTask (ps : PromiseState) (t : TaskSpec) : List QEvent × PromiseState :=
  match ps with
  | .rejected i => ([], .rejected i)
  | .fulfilled =>
    ([QEvent.start t.id, QEvent.finish t.id t.succeeds],
     if t.succeeds then .fulfilled else .rejected t.id)

/-- `.catch(err => logger.warn(...))`: converts a rejection into a logged,
fulfilled chain, and passes a fulfilled chain through. -/
def catchLog (ps : PromiseState) : List QEvent × PromiseState :=
  match ps with
  | .rejected i => ([QEvent.logged i], .fulfilled)
  | .fulfilled => ([], .fulfilled)

/-- One enqueue step, `entry.queue = entry.queue.then(task).catch(log)`,
exactly the bodies of `enqueueProcessing` and `enqueuePlayback`. -/
def enqueueStep (ps : PromiseState) (t : TaskSpec) :
    List QEvent × PromiseState :=
  let r1 := thenTask ps t
  let r2 := catchLog r1.2
  (r1.1 ++ r2.1, r2.2)

/-- Trace of executing a chain built by successive enqueue steps starting
from the given settled state. -/
def runChain : PromiseState → List TaskSpec → List QEvent
  | _, [] => []
  | ps, t :: ts =>
    let r := enqueueStep ps t
    r.1 ++ runChain r.2 ts

/-- Trace of a session queue, which starts as `Promise.resolve()`. -/
def runQueue (tasks : List TaskSpec) : List QEvent :=
  runChain PromiseState.fulfilled tasks

/-- The events one enqueued task contributes to the trace. -/
def stepEvents (t : TaskSpec) : List QEvent :=
  [QEvent.start t.id, QEvent.finish t.id t.succeeds] ++
    (if t.succeeds then [] else [QEvent.logged t.id])

/-! ### Speaker capture (`handleSpeakingStart`) -/

/-- Observable events of one `handleSpeakingStart` invocation. -/
inductive SpeakEvent
  | speakerAdded (userId : String)
  | playerStopped
  | subscribed (userId : String)
  | enqueuedProcessing (userId : String) (durationSeconds : ℚ)
  | speakerRemoved (userId : String)
  deriving DecidableEq, Repr

/-- Oracle for the external effects one capture can observe: the byte length
of the decoded PCM stream (`decodeOpusStream` returns an empty buffer on
decode failure), whether `writeWavFile` throws, and whether the session
player is currently mid-playback. -/
structure CaptureEnv where
  decodedLen : Nat
  writeFails : Bool
  playerPlaying : Bool
  deriving DecidableEq, Repr

/-- Result of one `handleSpeakingStart` invocation: the active-speaker set
after the call, the event trace, whether a processing task was enqueued and
whether the invocation ended in a thrown error. -/
structure SpeakOutcome where
  activeSpeakers : List String
  events : List SpeakEvent
  enqueued : Bool
  threw : Bool
  deriving DecidableEq, Repr

/-- The guard `this.botUserId && userId === this.botUserId` (an unset or
empty bot id is falsy and never matches). -/
def botMatches (botUserId : Option String) (userId : String) : Bool :=
  match botUserId with
  | none => false
  | some b => !(b == "") && userId == b

/-- `handleSpeakingStart(entry, userId)` from the source: ignore empty,
already-active or bot speakers; otherwise add the speaker to the active set,
barge in on a playing player, subscribe to the speaker stream, and inside
try/finally decode, drop empty or sub-threshold segments, enqueue the rest,
and always remove the speaker from the active set. -/
def handleSpeakingStart (botUserId : Option String) (active : List String)
    (userId : String) (env : CaptureEnv) : SpeakOutcome :=
  if userId == "" || active.contains userId then
    ⟨active, [], false, false⟩
  else if botMatches botUserId userId then
    ⟨active, [], false, false⟩
  else
    let active1 := userId :: active
    let evPre := SpeakEvent.speakerAdded userId ::
      ((if env.playerPlaying then [SpeakEvent.playerStopped] else []) ++
        [SpeakEvent.subscribed userId])
    let activeEnd := active1.filter (fun x => !(x == userId))
    if env.decodedLen = 0 then
      ⟨activeEnd, evPre ++ [SpeakEvent.speakerRemoved userId], false, false⟩
    else if env.writeFails then
      ⟨activeEnd, evPre ++ [SpeakEvent.speakerRemoved userId], false, true⟩
    else if estimateDurationSeconds env.decodedLen < MIN_SEGMENT_SECONDS then
      ⟨activeEnd, evPre ++ [SpeakEvent.speakerRemoved userId], false, false⟩
    else
      ⟨activeEnd,
       evPre ++ [SpeakEvent.enqueuedProcessing userId
           (estimateDurationSeconds env.decodedLen),
         SpeakEvent.speakerRemoved userId],
       true, false⟩

/-- The `{ok, message, channelId?, guildId?}` result record of the public
operations. -/
structure VoiceOperationResult where
  ok : Bool
  message : String
  channelId : Option String := none
  guildId : Option String := none
  deriving DecidableEq, Repr

/-- The per-guild `VoiceSessionEntry` data the registry claims depend on:
its guild id, channel id and the numbered connection handle it owns. -/
structure SessionEntry where
  guildId : String
  channelId : String
  conn : Nat
  deriving DecidableEq, Repr

/-- Manager state: the session registry and a counter numbering the
connections handed out by `joinVoiceChannel`. -/
structure VMState where
  sessions : List (String × SessionEntry)
  nextConn : Nat
  deriving DecidableEq, Repr

/-- Observable side effects of `join`/`leave`. -/
inductive VEvent
  | connCreated (c : Nat)
  | connDestroyed (c : Nat)
  | playerStopped (c : Nat)
  | sessionRegistered (g ch : String)
  | sessionRemoved (g : String)
  deriving DecidableEq, Repr

/-- `Map.get` on the registry. -/
def mapGet (m : List (String × SessionEntry)) (k : String) :
    Option SessionEntry :=
  match m.find? (fun p => p.1 == k) with
  | none => none
  | some p => some p.2

/-- `Map.set` on the registry. -/
def mapSet (m : List (String × SessionEntry)) (k : String)
    (v : SessionEntry) : List (String × SessionEntry) :=
  (k, v) :: m.filter (fun p => !(p.1 == k))

/-- `Map.delete` on the registry. -/
def mapDelete (m : List (String × SessionEntry)) (k : String) :
    List (String × SessionEntry) :=
  m.filter (fun p => !(p.1 == k))

/-- The shape of the object `client.fetchChannel` resolves to: an optional
`type` field and an optional `guildId` field. -/
structure ChannelInfo where
  type : Option Nat
  guildId : Option String
  deriving DecidableEq, Repr

/-- `ChannelType.GuildVoice` discriminant. -/
def ChannelTypeGuildVoice : Nat := 2

/-- `ChannelType.GuildStageVoice` discriminant. -/
def ChannelTypeGuildStageVoice : Nat := 13

/-- `isVoiceChannel(type)` from the source. -/
def isVoiceChannel (t : Nat) : Bool :=
  t == ChannelTypeGuildVoice || t == ChannelTypeGuildStageVoice

/-- `!channelInfo || ("type" in channelInfo && !isVoiceChannel(channelInfo.type))`:
the fetch failed, or the object has a `type` field that is not
voice-capable. -/
def channelRejected (ci : Option ChannelInfo) : Bool :=
  match ci with
  | none => true
  | some info =>
    match info.type with
    | none => false
    | some t => !(isVoiceChannel t)

/-- `channelGuildId && channelGuildId !== guildId` (an absent or empty
guild id on the channel object is falsy and never rejects). -/
def guildRejected (ci : Option ChannelInfo) (g : String) : Bool :=
  match ci with
  | none => false
  | some info =>
    match info.guildId with
    | none => false
    | some gg => !(gg == "") && !(gg == g)

/-- Oracle for the collaborators `join` consults. -/
structure JoinEnv where
  voiceEnabled : Bool
  fetchChannel : String → Option ChannelInfo
  pluginAvailable : Bool
  readySucceeds : Bool

/-- `params.channelId && params.channelId !== entry.channelId` from `leave`
(an absent or empty channel id is falsy and never mismatches). -/
def channelMismatch (oc : Option String) (ec : String) : Bool :=
  match oc with
  | none => false
  | some c => !(c == "") && !(c == ec)

/-- `leave({guildId, channelId?})` from the source: fail without side
effects when no session exists or a given channel id does not match;
otherwise stop the player, destroy the connection and delete the session. -/
def leave (st : VMState) (guildId : String) (channelId : Option String) :
    VoiceOperationResult × VMState × List VEvent :=
  let g := jsTrim guildId
  match mapGet st.sessions g with
  | none =>
    ({ ok := false, message := "Not connected to a voice channel." }, st, [])
  | some entry =>
    if channelMismatch channelId entry.channelId then
      ({ ok := false, message := "Not connected to that voice channel." },
       st, [])
    else
      ({ ok := true, message := "Left <#" ++ entry.channelId ++ ">.",
         guildId := some g, channelId := some entry.channelId },
       { sessions := mapDelete st.sessions g, nextConn := st.nextConn },
       [VEvent.playerStopped entry.conn, VEvent.connDestroyed entry.conn,
        VEvent.sessionRemoved g])

/-- The part of `join` after the duplicate-session checks: validate the
channel, obtain the plugin, create the connection, wait for Ready, and
register the new session. -/
def joinConnect (env : JoinEnv) (st : VMState) (g c : String) :
    VoiceOperationResult × VMState × List VEvent :=
  let ci := env.fetchChannel c
  if channelRejected ci then
    ({ ok := false, message := "Channel " ++ c ++ " is not a voice channel." },
     st, [])
  else if guildRejected ci g then
    ({ ok := false, message := "Voice channel is not in this guild." }, st, [])
  else if !env.pluginAvailable then
    ({ ok := false, message := "Discord voice plugin is not available." },
     st, [])
  else
    let conn := st.nextConn
    if !env.readySucceeds then
      ({ ok := false, message := "Failed to join voice channel: timeout." },
       { sessions := st.sessions, nextConn := st.nextConn + 1 },
       [VEvent.connCreated conn, VEvent.connDestroyed conn])
    else
      ({ ok := true, message := "Joined <#" ++ c ++ ">.",
         guildId := some g, channelId := some c },
       { sessions := mapSet st.sessions g
           { guildId := g, channelId := c, conn := conn },
         nextConn := st.nextConn + 1 },
       [VEvent.connCreated conn, VEvent.sessionRegistered g c])

/-- `join({guildId, channelId})` from the source: reject when voice is
disabled or an id trims to empty; return success without side effects when
the guild already has a session on the same channel; `leave` first when it
has one on a different channel; then connect and register. -/
def join (env : JoinEnv) (st : VMState) (guildId channelId : String) :
    VoiceOperationResult × VMState × List VEvent :=
  if !env.voiceEnabled then
    ({ ok := false,
       message := "Discord voice is disabled (channels.discord.voice.enabled)." },
     st, [])
  else
    let g := jsTrim guildId
    let c := jsTrim channelId
    if g == "" || c == "" then
      ({ ok := false, message := "Missing guildId or channelId." }, st, [])
    else
      match mapGet st.sessions g with
      | some existing =>
        if existing.channelId == c then
          ({ ok := true, message := "Already connected to <#" ++ c ++ ">.",
             guildId := some g, channelId := some c }, st, [])
        else
          let r := leave st g none
          let r2 := joinConnect env r.2.1 g c
          (r2.1, r2.2.1, r.2.2 ++ r2.2.2)
      | none => joinConnect env st g c

/-- The loop body of `autoJoin`: skip empty guild ids, warn and skip
duplicate guilds, and `join` the rest sequentially. -/
def autoJoinLoop (env : JoinEnv) :
    List (String × String) → List String → VMState → VMState × List VEvent
  | [], _, st => (st, [])
  | e :: rest, seen, st =>
    let g := jsTrim e.1
    if g == "" then autoJoinLoop env rest seen st
    else if seen.contains g then autoJoinLoop env rest seen st
    else
      let r := join env st e.1 e.2
      let rr := autoJoinLoop env rest (g :: seen) r.2.1
      (rr.1, r.2.2 ++ rr.2)

/-- `autoJoin()` from the source: return immediately when voice is disabled,
otherwise run the loop over the configured entries. -/
def autoJoin (env : JoinEnv) (st : VMState)
    (entries : List (String × String)) : VMState × List VEvent :=
  if !env.voiceEnabled then (st, [])
  else autoJoinLoop env entries [] st

/-- Well-formedness of the registry: its guild keys are pairwise distinct
(automatic for a JavaScript `Map`). -/
def keysNodup (st : VMState) : Prop :=
  (st.sessions.map Prod.fst).Nodup

/-- The `{success, audioPath?, error?}` result of `textToSpeech`. -/
structure TtsResult where
  success : Bool
  audioPath : Option String
  deriving DecidableEq, Repr

/-- Oracle inputs of one `processSegment` run: the raw transcription output
text (before the trim/empty check of `transcribeAudio`), the `text` fields
of the agent reply payloads, the parsed TTS directive (`overrides.ttsText`
and `cleanedText` of `parseTtsDirectives`, an external collaborator) and the
TTS result. -/
structure ProcessEnv where
  transcriptionOutput : Option String
  payloadTexts : List (Option String)
  ttsTextOverride : Option String
  cleanedText : String
  tts : TtsResult

/-- `transcribeAudio` result handling from the source:
`const text = output?.text?.trim(); return text || undefined;`. -/
def transcribeAudioText (rawOutput : Option String) : Option String :=
  match rawOutput with
  | none => none
  | some s => if jsTrim s == "" then none else some (jsTrim s)

/-- JavaScript `Array.prototype.join("\n")`. -/
def joinLines : List String → String
  | [] => ""
  | [s] => s
  | s :: rest => s ++ "\n" ++ joinLines rest

/-- The reply text built in `processSegment`:
`payloads.map(p => p.text).filter(t => typeof t === "string" && t.trim()).join("\n").trim()`. -/
def buildReplyText (payloadTexts : List (Option String)) : String :=
  jsTrim (joinLines ((payloadTexts.filterMap id).filter
    (fun t => !(jsTrim t == ""))))

/-- `directive.overrides.ttsText ?? directive.cleanedText.trim()`. -/
def speakTextOf (env : ProcessEnv) : String :=
  match env.ttsTextOverride with
  | some s => s
  | none => jsTrim env.cleanedText

/-- `!ttsResult.audioPath` (an absent or empty path is falsy). -/
def ttsPathFalsy (r : TtsResult) : Bool :=
  match r.audioPath with
  | none => true
  | some p => p == ""

/-- `processSegment` from the source, as the playback item it enqueues:
`some audioPath` when every stage produced non-empty output and synthesis
succeeded, `none` when any stage short-circuits. -/
def processSegment (env : ProcessEnv) : Option String :=
  match transcribeAudioText env.transcriptionOutput with
  | none => none
  | some _ =>
    if buildReplyText env.payloadTexts == "" then none
    else if speakTextOf env == "" then none
    else if !env.tts.success || ttsPathFalsy env.tts then none
    else env.tts.audioPath

/-- The player interactions of the playback task enqueued for an item:
an item plays its audio path; no item means the player is never touched. -/
def playbackPlayerActions : Option String → List String
  | none => []
  | some p => [p]

set_option maxHeartbeats 2000000 in
theorem buildWavBuffer_eq (pcm : List Nat) :
    buildWavBuffer pcm = wavHeaderBytes pcm.length ++ pcm := rfl

theorem wavHeaderBytes_length (n : Nat) : (wavHeaderBytes n).length = 44 := rfl

theorem readUInt32LE_wavHeader_40 (n : Nat) (pcm : List Nat) :
    readUInt32LE (wavHeaderBytes n ++ pcm) 40 =
      n % 4294967296 % 256 +
        256 * (n % 4294967296 / 256 % 256) +
        65536 * (n % 4294967296 / 65536 % 256) +
        16777216 * (n % 4294967296 / 16777216 % 256) := rfl

theorem readUInt32LE_wavHeader_4 (n : Nat) (pcm : List Nat) :
    readUInt32LE (wavHeaderBytes n ++ pcm) 4 =
      (36 + n) % 4294967296 % 256 +
        256 * ((36 + n) % 4294967296 / 256 % 256) +
        65536 * ((36 + n) % 4294967296 / 65536 % 256) +
        16777216 * ((36 + n) % 4294967296 / 16777216 % 256) := rfl

example : buildWavBuffer [7, 8] =
    [82, 73, 70, 70, 38, 0, 0, 0,
     87, 65, 86, 69, 102, 109, 116, 32, 16, 0, 0, 0, 1, 0, 2, 0,
     128, 187, 0, 0, 0, 238, 2, 0, 4, 0, 16, 0, 100, 97, 116, 97,
     2, 0, 0, 0, 7, 8] := by decide

theorem wav_len (pcm : List Nat) :
    (buildWavBuffer pcm).length = 44 + pcm.length := by
  rw [buildWavBuffer_eq, List.length_append, wavHeaderBytes_length]

theorem wav_riff (pcm : List Nat) :
    (buildWavBuffer pcm).take 4 = asciiBytes "RIFF" := by
  rw [buildWavBuffer_eq]
  rfl

theorem wav_chunk (pcm : List Nat) (h : 36 + pcm.length < 4294967296) :
    readUInt32LE (buildWavBuffer pcm) 4 = 36 + pcm.length := by
  rw [buildWavBuffer_eq, readUInt32LE_wavHeader_4]
  omega

theorem wav_wave (pcm : List Nat) :
    ((buildWavBuffer pcm).drop 8).take 4 = asciiBytes "WAVE" := by
  rw [buildWavBuffer_eq]
  rfl

theorem wav_fmt (pcm : List Nat) :
    ((buildWavBuffer pcm).drop 12).take 4 = asciiBytes "fmt " := by
  rw [buildWavBuffer_eq]
  rfl

theorem wav_sub16 (pcm : List Nat) :
    readUInt32LE (buildWavBuffer pcm) 16 = 16 := by
  rw [buildWavBuffer_eq]
  rfl

theorem wav_tag (pcm : List Nat) :
    readUInt16LE (buildWavBuffer pcm) 20 = 1 := by
  rw [buildWavBuffer_eq]
  rfl

theorem wav_chans (pcm : List Nat) :
    readUInt16LE (buildWavBuffer pcm) 22 = CHANNELS := by
  rw [buildWavBuffer_eq]
  rfl

theorem readUInt32LE_wavHeader_24 (n : Nat) (pcm : List Nat) :
    readUInt32LE (wavHeaderBytes n ++ pcm) 24 =
      128 + 256 * 187 + 65536 * 0 + 16777216 * 0 := rfl

theorem readUInt32LE_wavHeader_28 (n : Nat) (pcm : List Nat) :
    readUInt32LE (wavHeaderBytes n ++ pcm) 28 =
      0 + 256 * 238 + 65536 * 2 + 16777216 * 0 := rfl

theorem wav_rate (pcm : List Nat) :
    readUInt32LE (buildWavBuffer pcm) 24 = SAMPLE_RATE := by
  rw [buildWavBuffer_eq, readUInt32LE_wavHeader_24, SAMPLE_RATE]

theorem wav_byteRate (pcm : List Nat) :
    readUInt32LE (buildWavBuffer pcm) 28 = 192000 := by
  rw [buildWavBuffer_eq, readUInt32LE_wavHeader_28]

theorem wav_align (pcm : List Nat) :
    readUInt16LE (buildWavBuffer pcm) 32 = 4 := by
  rw [buildWavBuffer_eq]
  rfl

theorem wav_depth (pcm : List Nat) :
    readUInt16LE (buildWavBuffer pcm) 34 = BIT_DEPTH := by
  rw [buildWavBuffer_eq]
  rfl

theorem wav_data (pcm : List Nat) :
    ((buildWavBuffer pcm).drop 36).take 4 = asciiBytes "data" := by
  rw [buildWavBuffer_eq]
  rfl

theorem wav_payloadLen (pcm : List Nat) (h : 36 + pcm.length < 4294967296) :
    readUInt32LE (buildWavBuffer pcm) 40 = pcm.length := by
  rw [buildWavBuffer_eq, readUInt32LE_wavHeader_40]
  omega

theorem wav_payload (pcm : List Nat) :
    (buildWavBuffer pcm).drop 44 = pcm := by
  rw [buildWavBuffer_eq]
  rfl

/-- C9: for every PCM buffer of N bytes (with the length fields in the 32-bit
range the Node write primitives accept), `buildWavBuffer` returns exactly
44 + N bytes: a 44-byte header with "RIFF", chunk size 36+N, "WAVE", "fmt "
of subchunk size 16, format tag 1, 2 channels, sample rate 48000, byte rate
192000, block align 4, bit depth 16, "data" and declared payload length
exactly N, followed by the N payload bytes unchanged; reading back the
declared payload length yields exactly N. -/
theorem buildWavBuffer_header_roundtrip (pcm : List Nat)
    (h : 36 + pcm.length < 4294967296) :
    (buildWavBuffer pcm).length = 44 + pcm.length ∧
    (buildWavBuffer pcm).take 4 = asciiBytes "RIFF" ∧
    readUInt32LE (buildWavBuffer pcm) 4 = 36 + pcm.length ∧
    ((buildWavBuffer pcm).drop 8).take 4 = asciiBytes "WAVE" ∧
    ((buildWavBuffer pcm).drop 12).take 4 = asciiBytes "fmt " ∧
    readUInt32LE (buildWavBuffer pcm) 16 = 16 ∧
    readUInt16LE (buildWavBuffer pcm) 20 = 1 ∧
    readUInt16LE (buildWavBuffer pcm) 22 = CHANNELS ∧
    readUInt32LE (buildWavBuffer pcm) 24 = SAMPLE_RATE ∧
    readUInt32LE (buildWavBuffer pcm) 28 = 192000 ∧
    readUInt16LE (buildWavBuffer pcm) 32 = 4 ∧
    readUInt16LE (buildWavBuffer pcm) 34 = BIT_DEPTH ∧
    ((buildWavBuffer pcm).drop 36).take 4 = asciiBytes "data" ∧
    readUInt32LE (buildWavBuffer pcm) 40 = pcm.length ∧
    (buildWavBuffer pcm).drop 44 = pcm :=
  ⟨wav_len pcm, wav_riff pcm, wav_chunk pcm h, wav_wave pcm, wav_fmt pcm,
   wav_sub16 pcm, wav_tag pcm, wav_chans pcm, wav_rate pcm, wav_byteRate pcm,
   wav_align pcm, wav_depth pcm, wav_data pcm, wav_payloadLen pcm h,
   wav_payload pcm⟩

/-- Closed witness for `buildWavBuffer_header_roundtrip` at a concrete
two-byte payload. -/
theorem buildWavBuffer_header_roundtrip_witness :
    readUInt32LE (buildWavBuffer [7, 8]) 40 = 2 ∧
      (buildWavBuffer [7, 8]).drop 44 = [7, 8] :=
  ⟨(buildWavBuffer_header_roundtrip [7, 8] (by decide)).2.2.2.2.2.2.2.2.2.2.2.2.2.1,
   (buildWavBuffer_header_roundtrip [7, 8] (by decide)).2.2.2.2.2.2.2.2.2.2.2.2.2.2⟩

/-! ### JavaScript string helpers

`String.prototype.trim` removes leading and trailing whitespace; the model
implements it directly on the character list so that it evaluates inside the
kernel (the core `String.trim` is defined by well-founded recursion on byte
positions and does not reduce). -/
example : jsTrim "  g1 " = "g1" := by decide

example : jsTrim " \t " = "" := by decide

/-! ### Per-session promise chains (`enqueueProcessing` / `enqueuePlayback`)

Both `enqueueProcessing` and `enqueuePlayback` update a per-session promise
field with `queue.then(task).catch(err => logger.warn(...))`.  A settled
promise is `fulfilled` or `rejected`; `.then` runs its task only on a
fulfilled chain, `.catch` turns a rejection back into fulfilment after
logging.  The trace of the chain is the list of observable events. -/
theorem runChain_fulfilled_cons (t : TaskSpec) (ts : List TaskSpec) :
    runChain PromiseState.fulfilled (t :: ts) =
      stepEvents t ++ runChain PromiseState.fulfilled ts := by
  cases ht : t.succeeds <;>
    simp [runChain, enqueueStep, thenTask, catchLog, stepEvents, ht]

theorem runQueue_eq_flatten (tasks : List TaskSpec) :
    runQueue tasks = (tasks.map stepEvents).flatten := by
  induction tasks with
  | nil => rfl
  | cons t ts ih =>
    rw [runQueue] at ih
    rw [runQueue, runChain_fulfilled_cons, ih, List.map_cons, List.flatten_cons]

theorem runQueue_append (l1 l2 : List TaskSpec) :
    runQueue (l1 ++ l2) = runQueue l1 ++ runQueue l2 := by
  simp [runQueue_eq_flatten]

theorem runQueue_singleton (t : TaskSpec) : runQueue [t] = stepEvents t := by
  rw [runQueue, runChain_fulfilled_cons]
  simp [runChain]

/-- C2: the per-session chains built by `enqueueProcessing` and
`enqueuePlayback` execute strictly in enqueue order: the trace of any queue
decomposes around tasks A and B (A enqueued first) so that the settling of A
lies strictly before the start of B, independently of whether A succeeded;
moreover every enqueued task starts, so one failure never stops the queue. -/
theorem queue_fifo_per_session (pre mid post : List TaskSpec) (a b : TaskSpec) :
    (runQueue (pre ++ a :: (mid ++ b :: post)) =
      runQueue pre ++ stepEvents a ++ runQueue mid ++ stepEvents b ++
        runQueue post) ∧
    QEvent.finish a.id a.succeeds ∈ stepEvents a ∧
    QEvent.start b.id ∈ stepEvents b ∧
    (∀ tasks : List TaskSpec, ∀ t ∈ tasks,
      QEvent.start t.id ∈ runQueue tasks) := by
  refine ⟨?_, ?_, ?_, ?_⟩
  · have h : pre ++ a :: (mid ++ b :: post) =
        (((pre ++ [a]) ++ mid) ++ [b]) ++ post := by simp
    rw [h, runQueue_append, runQueue_append, runQueue_append, runQueue_append,
      runQueue_singleton, runQueue_singleton]
  · simp [stepEvents]
  · simp [stepEvents]
  · intro tasks t ht
    rw [runQueue_eq_flatten]
    refine List.mem_flatten.mpr ⟨stepEvents t, List.mem_map_of_mem _ ht, ?_⟩
    simp [stepEvents]

/-- Closed witness for `queue_fifo_per_session`: in a queue where task 1
fails and task 2 follows it, task 2 still starts. -/
theorem queue_fifo_per_session_witness :
    QEvent.start 2 ∈ runQueue [⟨1, false⟩, ⟨2, true⟩] :=
  (queue_fifo_per_session [] [] [] ⟨1, false⟩ ⟨2, true⟩).2.2.2
    [⟨1, false⟩, ⟨2, true⟩] ⟨2, true⟩ (by decide)

/-- C6: the estimated duration of an N-byte PCM buffer is N/192000 seconds
(bytes divided by bytes-per-sample times channels times sample rate), and a
captured segment whose estimated duration is below 0.35 seconds is never
enqueued onto the processing queue by `handleSpeakingStart`. -/
theorem short_segment_never_enqueued :
    (∀ n : Nat, estimateDurationSeconds n = (n : ℚ) / 192000) ∧
    ∀ (bot : Option String) (active : List String) (u : String)
      (env : CaptureEnv),
      estimateDurationSeconds env.decodedLen < MIN_SEGMENT_SECONDS →
        (handleSpeakingStart bot active u env).enqueued = false ∧
        ∀ d : ℚ, SpeakEvent.enqueuedProcessing u d ∉
          (handleSpeakingStart bot active u env).events := by
  constructor
  · intro n
    rw [estimateDurationSeconds]
    norm_num [BIT_DEPTH, CHANNELS, SAMPLE_RATE]
  · intro bot active u env h
    simp only [handleSpeakingStart]
    split_ifs <;> simp_all

/-- Closed witness for `short_segment_never_enqueued`: a 1000-byte segment
(about 5.2 ms) is dropped. -/
theorem short_segment_never_enqueued_witness :
    (handleSpeakingStart none [] "u" ⟨1000, false, false⟩).enqueued = false :=
  (short_segment_never_enqueued.2 none [] "u" ⟨1000, false, false⟩
    (by norm_num [estimateDurationSeconds, BIT_DEPTH, CHANNELS, SAMPLE_RATE,
      MIN_SEGMENT_SECONDS])).1

/-- C8: a speaking-start signal for a speaker already being captured, or for
the bot itself, is ignored with no capture and no state change; otherwise the
speaker is added to the active set, capture is started, and the speaker is
removed from the active set when capture ends on every outcome path, leaving
the set exactly as before. -/
theorem speaking_start_guard_and_cleanup
    (bot : Option String) (active : List String) (u : String)
    (env : CaptureEnv) :
    ((u ∈ active ∨ botMatches bot u = true) →
      handleSpeakingStart bot active u env = ⟨active, [], false, false⟩) ∧
    (u ≠ "" → u ∉ active → botMatches bot u = false →
      (handleSpeakingStart bot active u env).activeSpeakers = active ∧
      SpeakEvent.subscribed u ∈ (handleSpeakingStart bot active u env).events ∧
      ∃ mid : List SpeakEvent,
        (handleSpeakingStart bot active u env).events =
          SpeakEvent.speakerAdded u ::
            (mid ++ [SpeakEvent.speakerRemoved u])) := by
  constructor
  · intro h
    rcases h with h | h
    · have hc : (u == "" || active.contains u) = true := by
        simp [List.contains, h]
      rw [handleSpeakingStart, if_pos hc]
    · by_cases hm : u ∈ active
      · have hc : (u == "" || active.contains u) = true := by
          simp [List.contains, hm]
        rw [handleSpeakingStart, if_pos hc]
      · by_cases he : u = ""
        · have hc : (u == "" || active.contains u) = true := by simp [he]
          rw [handleSpeakingStart, if_pos hc]
        · have hc : ¬((u == "" || active.contains u) = true) := by
            simp [List.contains, he, hm]
          rw [handleSpeakingStart, if_neg hc, if_pos h]
  · intro hne hmem hbot
    have hc : (u == "" || active.contains u) = false := by
      simp [List.contains, hne, hmem]
    have hfilter : (u :: active).filter (fun x => !(x == u)) = active := by
      rw [List.filter_cons]
      simp only [beq_self_eq_true, Bool.not_true, Bool.false_eq_true,
        if_false]
      refine List.filter_eq_self.mpr fun a ha => ?_
      have hau : a ≠ u := fun hEq => hmem (hEq ▸ ha)
      simp [hau]
    simp only [handleSpeakingStart, hc, Bool.false_eq_true, if_false, hbot,
      hfilter]
    split_ifs <;> refine ⟨rfl, by simp, ?_⟩
    · exact ⟨[SpeakEvent.playerStopped, SpeakEvent.subscribed u], by simp⟩
    · exact ⟨[SpeakEvent.subscribed u], by simp⟩
    · exact ⟨[SpeakEvent.playerStopped, SpeakEvent.subscribed u], by simp⟩
    · exact ⟨[SpeakEvent.subscribed u], by simp⟩
    · exact ⟨[SpeakEvent.playerStopped, SpeakEvent.subscribed u], by simp⟩
    · exact ⟨[SpeakEvent.subscribed u], by simp⟩
    · exact ⟨[SpeakEvent.playerStopped, SpeakEvent.subscribed u,
        SpeakEvent.enqueuedProcessing u
          (estimateDurationSeconds env.decodedLen)], by simp⟩
    · exact ⟨[SpeakEvent.subscribed u,
        SpeakEvent.enqueuedProcessing u
          (estimateDurationSeconds env.decodedLen)], by simp⟩

/-- Closed witness for `speaking_start_guard_and_cleanup`: speaker "a" with a
successful long capture is added and removed, leaving the active set as it
was. -/
theorem speaking_start_guard_and_cleanup_witness :
    (handleSpeakingStart (some "bot") ["b"] "a"
      ⟨200000, false, true⟩).activeSpeakers = ["b"] :=
  ((speaking_start_guard_and_cleanup (some "bot") ["b"] "a"
    ⟨200000, false, true⟩).2 (by decide) (by decide) (by decide)).1

/-! ### Voice session manager (`DiscordVoiceManager`)

The `sessions` field is a JavaScript `Map` keyed by guild id, modelled as an
association list.  The external transport is an oracle: whether voice is
enabled, what `client.fetchChannel` returns, whether the voice plugin is
available and whether the connection reaches the Ready state in time.
Connections are numbered so teardown can be observed in the event trace. -/
theorem dropWhile_dropWhile {α : Type} (p : α → Bool) (l : List α) :
    (l.dropWhile p).dropWhile p = l.dropWhile p := by
  induction l with
  | nil => rfl
  | cons a t ih =>
    by_cases h : p a
    · simp [List.dropWhile_cons, h, ih]
    · simp [List.dropWhile_cons, h]

theorem dropWhile_head_false {α : Type} (p : α → Bool) (l : List α) :
    l.dropWhile p = [] ∨
      ∃ a t, l.dropWhile p = a :: t ∧ p a = false := by
  induction l with
  | nil => exact Or.inl rfl
  | cons a t ih =>
    by_cases h : p a
    · simpa [List.dropWhile_cons, h] using ih
    · exact Or.inr ⟨a, t, by simp [List.dropWhile_cons, h], by simp [h]⟩

theorem jsTrim_idem (s : String) : jsTrim (jsTrim s) = jsTrim s := by
  rcases s with ⟨l⟩
  rw [jsTrim, jsTrim]
  set ws := Char.isWhitespace with hws
  set l1 := l.dropWhile ws with hl1
  set l2 := (l1.reverse.dropWhile ws).reverse with hl2
  have hA : l2.dropWhile ws = l2 := by
    cases hl2c : l2 with
    | nil => simp
    | cons a t =>
      have hsplit : l1 = l2 ++ (l1.reverse.takeWhile ws).reverse := by
        conv_lhs => rw [← l1.reverse_reverse,
          ← List.takeWhile_append_dropWhile ws l1.reverse]
        rw [List.reverse_append, hl2]
      rcases dropWhile_head_false ws l with h0 | ⟨a0, t0, h0, hpa0⟩
      · rw [← hl1] at h0
        rw [h0, hl2c] at hsplit
        simp at hsplit
      · rw [← hl1] at h0
        rw [h0, hl2c] at hsplit
        have ha : a0 = a := by
          have hh := congrArg List.head? hsplit
          simpa using hh
        have hwa : ws a = false := ha ▸ hpa0
        rw [List.dropWhile_cons, hwa]
        simp
  have hB : l2.reverse.dropWhile ws = l2.reverse := by
    rw [hl2, List.reverse_reverse]
    exact dropWhile_dropWhile ws l1.reverse
  rw [hA, hB, List.reverse_reverse]

theorem keys_filterNe (m : List (String × SessionEntry)) (k : String) :
    (m.filter (fun p => !(p.1 == k))).map Prod.fst
      = (m.map Prod.fst).filter (fun x => !(x == k)) := by
  induction m with
  | nil => rfl
  | cons a t ih =>
    by_cases h : a.1 == k <;> simp [List.filter_cons, h, ih]

theorem nodup_mapDelete (m : List (String × SessionEntry)) (k : String)
    (h : (m.map Prod.fst).Nodup) :
    ((mapDelete m k).map Prod.fst).Nodup := by
  rw [mapDelete, keys_filterNe]
  exact h.filter _

theorem nodup_mapSet (m : List (String × SessionEntry)) (k : String)
    (v : SessionEntry) (h : (m.map Prod.fst).Nodup) :
    ((mapSet m k v).map Prod.fst).Nodup := by
  rw [mapSet, List.map_cons, keys_filterNe, List.nodup_cons]
  refine ⟨?_, h.filter _⟩
  intro hk
  have := List.of_mem_filter hk
  simp at this

theorem filter_key_length_le_one (m : List (String × SessionEntry))
    (g : String) (h : (m.map Prod.fst).Nodup) :
    (m.filter (fun p => p.1 == g)).length ≤ 1 := by
  induction m with
  | nil => simp
  | cons a t ih =>
    rw [List.map_cons, List.nodup_cons] at h
    rw [List.filter_cons]
    by_cases hk : a.1 == g
    · simp only [hk, if_true]
      have hnil : t.filter (fun p => p.1 == g) = [] := by
        rw [List.filter_eq_nil_iff]
        intro p hp hpg
        refine h.1 ?_
        have : p.1 = g := by simpa using hpg
        have hag : a.1 = g := by simpa using hk
        rw [hag, ← this]
        exact List.mem_map_of_mem Prod.fst hp
      rw [hnil]
      simp
    · simp only [hk, Bool.false_eq_true, if_false]
      exact ih h.2

theorem mapGet_mapDelete (m : List (String × SessionEntry)) (k : String) :
    mapGet (mapDelete m k) k = none := by
  rw [mapGet, mapDelete]
  have : (m.filter (fun p => !(p.1 == k))).find? (fun p => p.1 == k) = none := by
    rw [List.find?_eq_none]
    intro x hx hxk
    have := List.of_mem_filter hx
    rw [hxk] at this
    simp at this
  rw [this]

theorem leave_none_fail (st : VMState) (gid : String) (oc : Option String)
    (hget : mapGet st.sessions (jsTrim gid) = none) :
    leave st gid oc =
      ({ ok := false, message := "Not connected to a voice channel." },
       st, []) := by
  simp [leave, hget]

theorem leave_mismatch_fail (st : VMState) (gid : String) (oc : Option String)
    (e : SessionEntry) (hget : mapGet st.sessions (jsTrim gid) = some e)
    (hmm : channelMismatch oc e.channelId = true) :
    leave st gid oc =
      ({ ok := false, message := "Not connected to that voice channel." },
       st, []) := by
  simp [leave, hget, hmm]

theorem leave_some_ok (st : VMState) (gid : String) (oc : Option String)
    (e : SessionEntry) (hget : mapGet st.sessions (jsTrim gid) = some e)
    (hmm : channelMismatch oc e.channelId = false) :
    leave st gid oc =
      ({ ok := true, message := "Left <#" ++ e.channelId ++ ">.",
         guildId := some (jsTrim gid), channelId := some e.channelId },
       { sessions := mapDelete st.sessions (jsTrim gid),
         nextConn := st.nextConn },
       [VEvent.playerStopped e.conn, VEvent.connDestroyed e.conn,
        VEvent.sessionRemoved (jsTrim gid)]) := by
  simp [leave, hget, hmm]

theorem joinConnect_bad_channel (env : JoinEnv) (st : VMState) (g c : String)
    (h : channelRejected (env.fetchChannel c) = true) :
    joinConnect env st g c =
      ({ ok := false,
         message := "Channel " ++ c ++ " is not a voice channel." },
       st, []) := by
  simp [joinConnect, h]

theorem joinConnect_bad_guild (env : JoinEnv) (st : VMState) (g c : String)
    (h1 : channelRejected (env.fetchChannel c) = false)
    (h2 : guildRejected (env.fetchChannel c) g = true) :
    joinConnect env st g c =
      ({ ok := false, message := "Voice channel is not in this guild." },
       st, []) := by
  simp [joinConnect, h1, h2]

theorem joinConnect_sessions_cases (env : JoinEnv) (st : VMState)
    (g c : String) :
    (joinConnect env st g c).2.1.sessions = st.sessions ∨
    (joinConnect env st g c).2.1.sessions =
      mapSet st.sessions g ⟨g, c, st.nextConn⟩ := by
  rw [joinConnect]
  split_ifs <;> first | exact Or.inl rfl | exact Or.inr rfl

theorem join_disabled_eq (env : JoinEnv) (st : VMState) (gid cid : String)
    (h : env.voiceEnabled = false) :
    join env st gid cid =
      ({ ok := false,
         message := "Discord voice is disabled (channels.discord.voice.enabled)." },
       st, []) := by
  simp [join, h]

theorem join_missing_eq (env : JoinEnv) (st : VMState) (gid cid : String)
    (henabled : env.voiceEnabled = true)
    (h : (jsTrim gid == "" || jsTrim cid == "") = true) :
    join env st gid cid =
      ({ ok := false, message := "Missing guildId or channelId." },
       st, []) := by
  simp [join, henabled, h]

theorem join_same_eq (env : JoinEnv) (st : VMState) (gid cid : String)
    (e : SessionEntry) (henabled : env.voiceEnabled = true)
    (hg : (jsTrim gid == "") = false) (hc : (jsTrim cid == "") = false)
    (hget : mapGet st.sessions (jsTrim gid) = some e)
    (hch : (e.channelId == jsTrim cid) = true) :
    join env st gid cid =
      ({ ok := true,
         message := "Already connected to <#" ++ jsTrim cid ++ ">.",
         guildId := some (jsTrim gid), channelId := some (jsTrim cid) },
       st, []) := by
  simp [join, henabled, hg, hc, hget, hch]

theorem join_no_session_eq (env : JoinEnv) (st : VMState) (gid cid : String)
    (henabled : env.voiceEnabled = true)
    (hg : (jsTrim gid == "") = false) (hc : (jsTrim cid == "") = false)
    (hget : mapGet st.sessions (jsTrim gid) = none) :
    join env st gid cid = joinConnect env st (jsTrim gid) (jsTrim cid) := by
  simp [join, henabled, hg, hc, hget]

theorem join_diff_channel_eq (env : JoinEnv) (st : VMState) (gid cid : String)
    (e : SessionEntry) (henabled : env.voiceEnabled = true)
    (hg : (jsTrim gid == "") = false) (hc : (jsTrim cid == "") = false)
    (hget : mapGet st.sessions (jsTrim gid) = some e)
    (hne : (e.channelId == jsTrim cid) = false) :
    join env st gid cid =
      ((joinConnect env ⟨mapDelete st.sessions (jsTrim gid), st.nextConn⟩
          (jsTrim gid) (jsTrim cid)).1,
       (joinConnect env ⟨mapDelete st.sessions (jsTrim gid), st.nextConn⟩
          (jsTrim gid) (jsTrim cid)).2.1,
       VEvent.playerStopped e.conn :: VEvent.connDestroyed e.conn ::
         VEvent.sessionRemoved (jsTrim gid) ::
         (joinConnect env ⟨mapDelete st.sessions (jsTrim gid), st.nextConn⟩
            (jsTrim gid) (jsTrim cid)).2.2) := by
  have hget2 : mapGet st.sessions (jsTrim (jsTrim gid)) = some e := by
    rw [jsTrim_idem]
    exact hget
  have hleave := leave_some_ok st (jsTrim gid) none e hget2 rfl
  simp only [join, henabled, Bool.not_true, Bool.false_eq_true, if_false,
    hg, hc, Bool.or_self, hget, hne]
  rw [hleave]
  simp [jsTrim_idem]

theorem join_sessions_cases (env : JoinEnv) (st : VMState)
    (gid cid : String) :
    (join env st gid cid).2.1.sessions = st.sessions ∨
    (join env st gid cid).2.1.sessions =
      mapSet st.sessions (jsTrim gid)
        ⟨jsTrim gid, jsTrim cid, st.nextConn⟩ ∨
    (join env st gid cid).2.1.sessions = mapDelete st.sessions (jsTrim gid) ∨
    (join env st gid cid).2.1.sessions =
      mapSet (mapDelete st.sessions (jsTrim gid)) (jsTrim gid)
        ⟨jsTrim gid, jsTrim cid, st.nextConn⟩ := by
  by_cases henabled : env.voiceEnabled = true
  · by_cases hmiss : (jsTrim gid == "" || jsTrim cid == "") = true
    · rw [join_missing_eq env st gid cid henabled hmiss]
      exact Or.inl rfl
    · have hg : (jsTrim gid == "") = false := by
        cases h : (jsTrim gid == "") with
        | false => rfl
        | true => exact absurd (by simp [h]) hmiss
      have hc : (jsTrim cid == "") = false := by
        cases h : (jsTrim cid == "") with
        | false => rfl
        | true => exact absurd (by simp [h]) hmiss
      cases hget : mapGet st.sessions (jsTrim gid) with
      | none =>
        rw [join_no_session_eq env st gid cid henabled hg hc hget]
        rcases joinConnect_sessions_cases env st (jsTrim gid) (jsTrim cid)
          with h | h
        · exact Or.inl h
        · exact Or.inr (Or.inl h)
      | some e =>
        by_cases hch : (e.channelId == jsTrim cid) = true
        · rw [join_same_eq env st gid cid e henabled hg hc hget hch]
          exact Or.inl rfl
        · have hne : (e.channelId == jsTrim cid) = false := by
            cases h : (e.channelId == jsTrim cid) with
            | false => rfl
            | true => exact absurd h hch
          rw [join_diff_channel_eq env st gid cid e henabled hg hc hget hne]
          rcases joinConnect_sessions_cases env
            ⟨mapDelete st.sessions (jsTrim gid), st.nextConn⟩
            (jsTrim gid) (jsTrim cid) with h | h
          · exact Or.inr (Or.inr (Or.inl h))
          · exact Or.inr (Or.inr (Or.inr h))
  · have hdis : env.voiceEnabled = false := by
      cases h : env.voiceEnabled with
      | false => rfl
      | true => exact absurd h henabled
    rw [join_disabled_eq env st gid cid hdis]
    exact Or.inl rfl

theorem join_preserves_nodup (env : JoinEnv) (st : VMState)
    (gid cid : String) (h : keysNodup st) :
    keysNodup (join env st gid cid).2.1 := by
  rcases join_sessions_cases env st gid cid with h1 | h1 | h1 | h1 <;>
    rw [keysNodup, h1]
  · exact h
  · exact nodup_mapSet _ _ _ h
  · exact nodup_mapDelete _ _ h
  · exact nodup_mapSet _ _ _ (nodup_mapDelete _ _ h)

/-- C1: the registry is keyed by guild id, so a well-formed registry stays
well-formed across `join` and holds at most one session per guild; and a
`join` for a guild that already has a session on a different channel first
emits the teardown of the existing session (player stop, connection destroy,
registry removal) before any further event. -/
theorem at_most_one_session_per_guild (env : JoinEnv) (st : VMState)
    (gid cid : String) :
    (keysNodup st →
      keysNodup (join env st gid cid).2.1 ∧
      ∀ g : String,
        ((join env st gid cid).2.1.sessions.filter
          (fun p => p.1 == g)).length ≤ 1) ∧
    (∀ e : SessionEntry, env.voiceEnabled = true →
      (jsTrim gid == "") = false → (jsTrim cid == "") = false →
      mapGet st.sessions (jsTrim gid) = some e →
      (e.channelId == jsTrim cid) = false →
      ∃ tail, (join env st gid cid).2.2 =
        VEvent.playerStopped e.conn :: VEvent.connDestroyed e.conn ::
          VEvent.sessionRemoved (jsTrim gid) :: tail) := by
  constructor
  · intro h
    exact ⟨join_preserves_nodup env st gid cid h, fun g =>
      filter_key_length_le_one _ g (join_preserves_nodup env st gid cid h)⟩
  · intro e henabled hg hc hget hne
    refine ⟨(joinConnect env
      ⟨mapDelete st.sessions (jsTrim gid), st.nextConn⟩
      (jsTrim gid) (jsTrim cid)).2.2, ?_⟩
    rw [join_diff_channel_eq env st gid cid e henabled hg hc hget hne]

/-- Closed witness for `at_most_one_session_per_guild`: joining guild g1 on
channel c2 while a session on c1 exists tears the old session down first,
and the registry keeps at most one entry for g1. -/
theorem at_most_one_session_per_guild_witness :
    (((join ⟨true, fun _ => some ⟨some 2, some "g1"⟩, true, true⟩
        ⟨[("g1", ⟨"g1", "c1", 0⟩)], 1⟩ "g1" "c2").2.1.sessions.filter
          (fun p => p.1 == "g1")).length ≤ 1) ∧
    ∃ tail, (join ⟨true, fun _ => some ⟨some 2, some "g1"⟩, true, true⟩
        ⟨[("g1", ⟨"g1", "c1", 0⟩)], 1⟩ "g1" "c2").2.2 =
      VEvent.playerStopped 0 :: VEvent.connDestroyed 0 ::
        VEvent.sessionRemoved (jsTrim "g1") :: tail :=
  ⟨((at_most_one_session_per_guild
      ⟨true, fun _ => some ⟨some 2, some "g1"⟩, true, true⟩
      ⟨[("g1", ⟨"g1", "c1", 0⟩)], 1⟩ "g1" "c2").1
      (by simp [keysNodup])).2 "g1",
   (at_most_one_session_per_guild
      ⟨true, fun _ => some ⟨some 2, some "g1"⟩, true, true⟩
      ⟨[("g1", ⟨"g1", "c1", 0⟩)], 1⟩ "g1" "c2").2 ⟨"g1", "c1", 0⟩ rfl
      (by decide) (by decide) (by decide) (by decide)⟩

/-- C3: `join` for a guild that already has a session on the same channel
returns ok with an "Already connected" message, leaves the state untouched
and emits no events (no connection is created, nothing is torn down). -/
theorem join_idempotent_same_channel (env : JoinEnv) (st : VMState)
    (gid cid : String) (e : SessionEntry)
    (henabled : env.voiceEnabled = true)
    (hg : (jsTrim gid == "") = false) (hc : (jsTrim cid == "") = false)
    (hget : mapGet st.sessions (jsTrim gid) = some e)
    (hch : e.channelId = jsTrim cid) :
    join env st gid cid =
      ({ ok := true,
         message := "Already connected to <#" ++ jsTrim cid ++ ">.",
         guildId := some (jsTrim gid), channelId := some (jsTrim cid) },
       st, []) :=
  join_same_eq env st gid cid e henabled hg hc hget (by simp [hch])

/-- Closed witness for `join_idempotent_same_channel` on a one-session
registry. -/
theorem join_idempotent_same_channel_witness :
    join ⟨true, fun _ => none, true, true⟩ ⟨[("g1", ⟨"g1", "c1", 0⟩)], 1⟩
        "g1" "c1" =
      ({ ok := true,
         message := "Already connected to <#" ++ jsTrim "c1" ++ ">.",
         guildId := some (jsTrim "g1"), channelId := some (jsTrim "c1") },
       ⟨[("g1", ⟨"g1", "c1", 0⟩)], 1⟩, []) :=
  join_idempotent_same_channel ⟨true, fun _ => none, true, true⟩
    ⟨[("g1", ⟨"g1", "c1", 0⟩)], 1⟩ "g1" "c1" ⟨"g1", "c1", 0⟩ rfl
    (by decide) (by decide) (by decide) (by decide)

/-- C4: when the fetched channel is missing or not voice-capable, `join`
fails with a "not a voice channel" message; when the channel belongs to a
different guild, `join` fails; in both cases no session is registered for
the guild afterwards (the model is a total function, so no exception is
possible). -/
theorem join_validates_channel (env : JoinEnv) (st : VMState)
    (gid cid : String)
    (henabled : env.voiceEnabled = true)
    (hg : (jsTrim gid == "") = false) (hc : (jsTrim cid == "") = false)
    (hnotsame : ∀ e : SessionEntry,
      mapGet st.sessions (jsTrim gid) = some e →
      (e.channelId == jsTrim cid) = false) :
    (channelRejected (env.fetchChannel (jsTrim cid)) = true →
      (join env st gid cid).1.ok = false ∧
      (join env st gid cid).1.message =
        "Channel " ++ jsTrim cid ++ " is not a voice channel." ∧
      mapGet (join env st gid cid).2.1.sessions (jsTrim gid) = none) ∧
    (channelRejected (env.fetchChannel (jsTrim cid)) = false →
      guildRejected (env.fetchChannel (jsTrim cid)) (jsTrim gid) = true →
      (join env st gid cid).1.ok = false ∧
      (join env st gid cid).1.message = "Voice channel is not in this guild." ∧
      mapGet (join env st gid cid).2.1.sessions (jsTrim gid) = none) := by
  cases hget : mapGet st.sessions (jsTrim gid) with
  | none =>
    rw [join_no_session_eq env st gid cid henabled hg hc hget]
    constructor
    · intro hrej
      rw [joinConnect_bad_channel env st (jsTrim gid) (jsTrim cid) hrej]
      exact ⟨rfl, rfl, hget⟩
    · intro hok hrg
      rw [joinConnect_bad_guild env st (jsTrim gid) (jsTrim cid) hok hrg]
      exact ⟨rfl, rfl, hget⟩
  | some e =>
    have hne := hnotsame e hget
    rw [join_diff_channel_eq env st gid cid e henabled hg hc hget hne]
    constructor
    · intro hrej
      rw [joinConnect_bad_channel env
        ⟨mapDelete st.sessions (jsTrim gid), st.nextConn⟩
        (jsTrim gid) (jsTrim cid) hrej]
      exact ⟨rfl, rfl, mapGet_mapDelete _ _⟩
    · intro hok hrg
      rw [joinConnect_bad_guild env
        ⟨mapDelete st.sessions (jsTrim gid), st.nextConn⟩
        (jsTrim gid) (jsTrim cid) hok hrg]
      exact ⟨rfl, rfl, mapGet_mapDelete _ _⟩

/-- Closed witness for `join_validates_channel`: joining a text channel
(type 0) fails with the "not a voice channel" message and registers no
session. -/
theorem join_validates_channel_witness :
    (join ⟨true, fun _ => some ⟨some 0, some "g1"⟩, true, true⟩ ⟨[], 0⟩
      "g1" "c1").1.ok = false ∧
    (join ⟨true, fun _ => some ⟨some 0, some "g1"⟩, true, true⟩ ⟨[], 0⟩
      "g1" "c1").1.message =
      "Channel " ++ jsTrim "c1" ++ " is not a voice channel." ∧
    mapGet (join ⟨true, fun _ => some ⟨some 0, some "g1"⟩, true, true⟩
      ⟨[], 0⟩ "g1" "c1").2.1.sessions (jsTrim "g1") = none :=
  (join_validates_channel ⟨true, fun _ => some ⟨some 0, some "g1"⟩, true, true⟩
    ⟨[], 0⟩ "g1" "c1" rfl (by decide) (by decide)
    (fun e he => by rw [mapGet] at he; simp at he)).1 (by decide)

/-- C5: `leave` fails without side effects when no session exists for the
guild or a given channel id does not match the session; otherwise it stops
the player, destroys the connection, removes the session and reports ok. -/
theorem leave_spec (st : VMState) (gid : String) (oc : Option String) :
    (mapGet st.sessions (jsTrim gid) = none →
      leave st gid oc =
        ({ ok := false, message := "Not connected to a voice channel." },
         st, [])) ∧
    (∀ e : SessionEntry, mapGet st.sessions (jsTrim gid) = some e →
      channelMismatch oc e.channelId = true →
      leave st gid oc =
        ({ ok := false, message := "Not connected to that voice channel." },
         st, [])) ∧
    (∀ e : SessionEntry, mapGet st.sessions (jsTrim gid) = some e →
      channelMismatch oc e.channelId = false →
      leave st gid oc =
        ({ ok := true, message := "Left <#" ++ e.channelId ++ ">.",
           guildId := some (jsTrim gid), channelId := some e.channelId },
         { sessions := mapDelete st.sessions (jsTrim gid),
           nextConn := st.nextConn },
         [VEvent.playerStopped e.conn, VEvent.connDestroyed e.conn,
          VEvent.sessionRemoved (jsTrim gid)]) ∧
      mapGet (leave st gid oc).2.1.sessions (jsTrim gid) = none) :=
  ⟨leave_none_fail st gid oc,
   fun e hget hmm => leave_mismatch_fail st gid oc e hget hmm,
   fun e hget hmm =>
     ⟨leave_some_ok st gid oc e hget hmm, by
       rw [leave_some_ok st gid oc e hget hmm]
       exact mapGet_mapDelete _ _⟩⟩

/-- Closed witness for `leave_spec`: leaving with no session fails with no
effects; leaving an existing session removes it from the registry. -/
theorem leave_spec_witness :
    leave ⟨[], 0⟩ "g1" none =
      ({ ok := false, message := "Not connected to a voice channel." },
       ⟨[], 0⟩, []) ∧
    mapGet (leave ⟨[("g1", ⟨"g1", "c1", 3⟩)], 4⟩ "g1"
      none).2.1.sessions (jsTrim "g1") = none :=
  ⟨(leave_spec ⟨[], 0⟩ "g1" none).1 (by decide),
   ((leave_spec ⟨[("g1", ⟨"g1", "c1", 3⟩)], 4⟩ "g1" none).2.2
     ⟨"g1", "c1", 3⟩ (by decide) (by decide)).2⟩

/-- C10: with voice disabled, `join` fails with a message naming the
disabled setting and `autoJoin` returns immediately; `join` with a guild or
channel id that trims to empty fails with "Missing guildId or channelId.";
in all cases the registry is left unchanged. -/
theorem disabled_or_missing_inputs (env : JoinEnv) (st : VMState)
    (gid cid : String) (entries : List (String × String)) :
    (env.voiceEnabled = false →
      join env st gid cid =
        ({ ok := false,
           message := "Discord voice is disabled (channels.discord.voice.enabled)." },
         st, []) ∧
      autoJoin env st entries = (st, [])) ∧
    (env.voiceEnabled = true →
      (jsTrim gid == "" || jsTrim cid == "") = true →
      join env st gid cid =
        ({ ok := false, message := "Missing guildId or channelId." },
         st, [])) := by
  constructor
  · intro h
    refine ⟨join_disabled_eq env st gid cid h, ?_⟩
    simp [autoJoin, h]
  · exact join_missing_eq env st gid cid

/-- Closed witness for `disabled_or_missing_inputs`: disabled voice and a
whitespace-only guild id. -/
theorem disabled_or_missing_inputs_witness :
    join ⟨false, fun _ => none, true, true⟩ ⟨[], 0⟩ "g1" "c1" =
      ({ ok := false,
         message := "Discord voice is disabled (channels.discord.voice.enabled)." },
       ⟨[], 0⟩, []) ∧
    autoJoin ⟨false, fun _ => none, true, true⟩ ⟨[], 0⟩ [("g1", "c1")] =
      (⟨[], 0⟩, []) ∧
    join ⟨true, fun _ => none, true, true⟩ ⟨[], 0⟩ "  " "c1" =
      ({ ok := false, message := "Missing guildId or channelId." },
       ⟨[], 0⟩, []) :=
  ⟨((disabled_or_missing_inputs ⟨false, fun _ => none, true, true⟩ ⟨[], 0⟩
      "g1" "c1" [("g1", "c1")]).1 rfl).1,
   ((disabled_or_missing_inputs ⟨false, fun _ => none, true, true⟩ ⟨[], 0⟩
      "g1" "c1" [("g1", "c1")]).1 rfl).2,
   (disabled_or_missing_inputs ⟨true, fun _ => none, true, true⟩ ⟨[], 0⟩
      "  " "c1" []).2 rfl (by decide)⟩

/-! ### Processing pipeline (`processSegment`)

`processSegment` consults the transcription capability, the agent and the
TTS capability; their raw outputs are oracle inputs, while every check and
transformation the source performs on them is modelled. -/

/-- C7: an item is enqueued onto the playback queue only when the transcript
is non-empty, the agent reply text is non-empty, the directive-stripped
speak text is non-empty and TTS succeeded with a non-empty audio path; and
when synthesis fails nothing is enqueued and no player action happens for
the segment. -/
theorem playback_enqueue_guard (env : ProcessEnv) :
    (∀ p : String, processSegment env = some p →
      transcribeAudioText env.transcriptionOutput ≠ none ∧
      buildReplyText env.payloadTexts ≠ "" ∧
      speakTextOf env ≠ "" ∧
      env.tts.success = true ∧
      env.tts.audioPath = some p ∧ p ≠ "") ∧
    (env.tts.success = false →
      processSegment env = none ∧
      playbackPlayerActions (processSegment env) = []) := by
  constructor
  · intro p hp
    rw [processSegment] at hp
    cases htr : transcribeAudioText env.transcriptionOutput with
    | none => rw [htr] at hp; exact absurd hp (by simp)
    | some t =>
      rw [htr] at hp
      by_cases hr : (buildReplyText env.payloadTexts == "") = true
      · rw [if_pos hr] at hp; exact absurd hp (by simp)
      · rw [if_neg hr] at hp
        by_cases hs : (speakTextOf env == "") = true
        · rw [if_pos hs] at hp; exact absurd hp (by simp)
        · rw [if_neg hs] at hp
          by_cases ht : (!env.tts.success || ttsPathFalsy env.tts) = true
          · rw [if_pos ht] at hp; exact absurd hp (by simp)
          · rw [if_neg ht] at hp
            have hp2 : env.tts.audioPath = some p := hp
            simp only [Bool.or_eq_true, Bool.not_eq_eq_eq_not,
              Bool.not_true, not_or] at ht
            refine ⟨by simp [htr], by simpa using hr, by simpa using hs,
              ?_, hp2, ?_⟩
            · cases hsucc : env.tts.success
              · exact absurd hsucc ht.1
              · rfl
            · intro hpe
              have : ttsPathFalsy env.tts = true := by
                rw [ttsPathFalsy, hp2, hpe]
                rfl
              exact ht.2 this
  · intro hfail
    have : processSegment env = none := by
      rw [processSegment]
      cases htr : transcribeAudioText env.transcriptionOutput with
      | none => rfl
      | some t =>
        simp [hfail]
    exact ⟨this, by rw [this]; rfl⟩

/-- Closed witness for `playback_enqueue_guard`: a failing synthesis
enqueues nothing and never touches the player. -/
theorem playback_enqueue_guard_witness :
    processSegment ⟨some "hello", [some "reply"], none, "reply",
        ⟨false, some "a.mp3"⟩⟩ = none ∧
    playbackPlayerActions (processSegment ⟨some "hello", [some "reply"],
        none, "reply", ⟨false, some "a.mp3"⟩⟩) = [] :=
  (playback_enqueue_guard ⟨some "hello", [some "reply"], none, "reply",
    ⟨false, some "a.mp3"⟩⟩).2 rfl

end OpenClaw.Voice
